import Mathlib

/-!
Verification of the home-assistant-jarvis orchestrator and triage pipeline

A shallow embedding in Lean 4 of the pieces of the `home-assistant-jarvis`
repository that the specification's claims are about:

* `scheduler.py` — `compute_state_diff` (noise-filtering state diff) and its
  thresholds;
* `agents/triage.py` — `classify` (event triage with notify fallback);
* `webhook_server.py` — `handle_alert` (webhook ingress);
* `agents/conversation.py` — `reply` history management, the
  `_run_with_tools` tool-calling loop with its round budget,
  `_format_tool_footer`, and `_write_ha_config`;
* `bot.py` — `handle_text` inbound routing (pending-interrupt resolution and
  busy rejection).

External collaborators (the LLM completion service, the HA REST client, the
filesystem, the validation subprocess) are modelled as explicit parameters or
oracle values, following the structure of the Python code.  Python floats are
modelled as rationals and Python `float(str)` as a decimal parser.  A few
operations of the agent (`ask_user`, `run_proactive`, the busy-flag wrapper
around `reply`) are called by `bot.py` and exercised by the repository's tests
but their implementation is not among the provided sources; they are modelled
from the specification and marked as such in their doc comments.
-/

namespace Jarvis

/-! Section: Python-style helpers -/

/-- Python `x or default` for an optional string: `None` and the empty string
are falsy and fall through to the default. -/
def pyOr (c : Option String) (d : String) : String :=
  match c with
  | none => d
  | some s => if s.isEmpty then d else s

/-- Strip leading and trailing whitespace from a character list. -/
def stripChars (cs : List Char) : List Char :=
  ((cs.dropWhile Char.isWhitespace).reverse.dropWhile Char.isWhitespace).reverse

/-- Python `str.strip()` with no argument. -/
def pyStrip (s : String) : String :=
  String.mk (stripChars s.toList)

/-- Python `str.lower()` (ASCII case folding suffices for the strings the
program compares). -/
def pyLower (s : String) : String :=
  String.mk (s.toList.map Char.toLower)

/-- Tokenizer for `pySplitWs`, accumulating the current word in reverse. -/
def splitWsAux : List Char → List Char → List String
  | [], acc => if acc.isEmpty then [] else [String.mk acc.reverse]
  | c :: cs, acc =>
    if c.isWhitespace then
      if acc.isEmpty then splitWsAux cs []
      else String.mk acc.reverse :: splitWsAux cs []
    else splitWsAux cs (c :: acc)

/-- Python `str.split()` with no separator: split on runs of whitespace,
discarding empty tokens. -/
def pySplitWs (s : String) : List String :=
  splitWsAux s.toList []

/-- Lookup in a Python dict modelled as an association list (`d[k]` /
`d.get(k)`). -/
def dget? (m : List (String × String)) (k : String) : Option String :=
  (m.find? (fun p => p.1 == k)).map (fun p => p.2)

/-- Python `k in d` on a dict modelled as an association list. -/
def dcontains (m : List (String × String)) (k : String) : Bool :=
  m.any (fun p => p.1 == k)

/-- Python `d.get(k, default)`. -/
def dgetD (m : List (String × String)) (k d : String) : String :=
  (dget? m k).getD d

/-- Python dict assignment `d[k] = v`: replaces the value in place (keeping
first-insertion order) or appends a fresh binding. -/
def dinsert (m : List (String × String)) (k v : String) : List (String × String) :=
  if m.any (fun p => p.1 == k) then
    m.map (fun p => if p.1 == k then (k, v) else p)
  else m ++ [(k, v)]

/-! Section: scheduler.py: numeric parsing (`_is_numeric` / `float`)

Python `float(str)` is modelled as a parser of optionally signed decimal
literals with optional fraction and exponent, surrounding whitespace
ignored; float values are modelled as rationals. -/

/-- Value of a list of decimal digit characters. -/
def digitsVal (cs : List Char) : Nat :=
  cs.foldl (fun n c => n * 10 + (c.toNat - 48)) 0

/-- Parse the (optionally signed) exponent digits after `e`/`E`. -/
def parseSignedExp (cs : List Char) : Option ℤ :=
  let p : ℤ × List Char :=
    match cs with
    | '+' :: rest => (1, rest)
    | '-' :: rest => (-1, rest)
    | _ => (1, cs)
  if p.2 ≠ [] ∧ p.2.all Char.isDigit then some (p.1 * (digitsVal p.2 : ℤ)) else none

/-- Parse an optional exponent suffix; `none` marks a malformed literal. -/
def parseExp (cs : List Char) : Option ℤ :=
  match cs with
  | [] => some 0
  | 'e' :: rest => parseSignedExp rest
  | 'E' :: rest => parseSignedExp rest
  | _ => none

/-- Model of Python `float(value)` on state strings (used by `_is_numeric`
and the numeric branch of `compute_state_diff`): `none` when `float` would
raise `ValueError`. -/
def parseNum (s : String) : Option ℚ :=
  let cs0 := stripChars s.toList
  let signed : ℚ × List Char :=
    match cs0 with
    | '+' :: rest => (1, rest)
    | '-' :: rest => (-1, rest)
    | _ => (1, cs0)
  let intPart := signed.2.takeWhile Char.isDigit
  let afterInt := signed.2.dropWhile Char.isDigit
  let fracSplit : List Char × List Char :=
    match afterInt with
    | '.' :: rest => (rest.takeWhile Char.isDigit, rest.dropWhile Char.isDigit)
    | _ => ([], afterInt)
  if intPart.isEmpty ∧ fracSplit.1.isEmpty then none
  else
    match parseExp fracSplit.2 with
    | none => none
    | some e =>
        let mag : ℚ :=
          (digitsVal intPart : ℚ) + (digitsVal fracSplit.1 : ℚ) / (10 : ℚ) ^ fracSplit.1.length
        some (signed.1 * mag * (10 : ℚ) ^ e)

/-- Embedding of `scheduler._is_numeric`: `float(value)` succeeds. -/
def isNumeric (s : String) : Bool :=
  (parseNum s).isSome

/-! Section: scheduler.py: `compute_state_diff` -/

/-- The constant `scheduler.BINARY_DOMAINS` — domains where any state change is meaningful
(no noise filtering). -/
def BINARY_DOMAINS : List String := ["binary_sensor", "switch", "lock", "input_boolean"]

/-- The constant `scheduler.NUMERIC_ABS_THRESHOLD` (2.0, absolute units). -/
def NUMERIC_ABS_THRESHOLD : ℚ := 2

/-- The constant `scheduler.NUMERIC_PCT_THRESHOLD` (0.05, i.e. 5% relative change). -/
def NUMERIC_PCT_THRESHOLD : ℚ := 5 / 100

/-- One element of the `states` list: a Home Assistant entity record
(`entity.get("entity_id", "")`, `entity.get("state", "")`). -/
structure Entity where
  entity_id : String
  state : String
deriving DecidableEq

/-- Computes `eid.split(".")[0] if "." in eid else ""`: the prefix of the entity id up
to the first dot. -/
def domainOf (eid : String) : String :=
  if eid.toList.contains '.' then String.mk (eid.toList.takeWhile (fun c => c ≠ '.'))
  else ""

/-- The per-entity branch of `compute_state_diff` for an entity present in
both snapshots whose value changed (`old_val ≠ new_val`): `some line` when a
diff line is emitted, `none` when the change is suppressed as noise.
`pct_change` is `float("inf")` when `old_f == 0`, and `inf >= PCT` always
holds, so the zero-old case qualifies unconditionally. -/
def diffLine (eid old_val new_val : String) : Option String :=
  let domain := domainOf eid
  if ¬ isNumeric new_val ∨ ¬ isNumeric old_val then
    some (eid ++ ": " ++ old_val ++ " -> " ++ new_val)
  else if domain ∈ BINARY_DOMAINS then
    some (eid ++ ": " ++ old_val ++ " -> " ++ new_val)
  else
    let old_f := (parseNum old_val).getD 0
    let new_f := (parseNum new_val).getD 0
    let abs_change := |new_f - old_f|
    if NUMERIC_ABS_THRESHOLD ≤ abs_change ∨ old_f = 0 ∨
        NUMERIC_PCT_THRESHOLD ≤ abs_change / |old_f| then
      some (eid ++ ": " ++ old_val ++ " -> " ++ new_val)
    else none

/-- Embedding of `scheduler.compute_state_diff`: compare current states against
`last_snapshot`, returning the new snapshot and the surviving diff lines.
`domains = []` models `domains=None` (no filtering, per Python truthiness). -/
def compute_state_diff (states : List Entity) (last_snapshot : List (String × String))
    (domains : List String) : List (String × String) × List String :=
  let snapshot := states.foldl
    (fun snap entity =>
      let eid := entity.entity_id
      let domain := domainOf eid
      if domains ≠ [] ∧ domain ∉ domains then snap
      else dinsert snap eid entity.state)
    []
  if last_snapshot.isEmpty then (snapshot, [])
  else
    let changes := snapshot.filterMap
      (fun p =>
        match dget? last_snapshot p.1 with
        | none => some (p.1 ++ ": new entity (" ++ p.2 ++ ")")
        | some old_val => if old_val = p.2 then none else diffLine p.1 old_val p.2)
    let removed := last_snapshot.filterMap
      (fun p => if (dget? snapshot p.1).isSome then none else some (p.1 ++ ": removed"))
    (snapshot, changes ++ removed)

/-! Section: agents/triage.py: `classify` -/

/-- The constant `triage.VALID_ACTIONS`. -/
def VALID_ACTIONS : List String := ["ignore", "log", "notify", "needs_input"]

/-- Embedding of `triage.classify`, parameterized by the outcome of the completion call
(`router.complete`): `Except.error` models a raised exception, `Except.ok raw`
the returned text.  Event formatting feeds only the prompt and is immaterial
to the returned action. -/
def classify (completion : Except String String) : String :=
  match completion with
  | .error _ => "notify"
  | .ok raw =>
    let action :=
      if (pyStrip raw).isEmpty then "notify"
      else (pySplitWs (pyLower (pyStrip raw))).headD ""
    if action ∈ VALID_ACTIONS then action else "notify"

/-! Section: webhook_server.py: `handle_alert`

The request body is modelled as `none` (not valid JSON) or `some data` (a
JSON object, as an association list).  `handle_alert` in the source awaits
`on_event(data)` and only then returns the `200` acknowledgment, so the
embedding records the actions it performs in program order: the `respond`
action is the last thing the handler does. -/

/-- One observable action of the webhook handler, in program order. -/
inductive WebAction where
  | invokeHandler (payload : List (String × String))
  | respond (status : Nat) (body : String)
deriving DecidableEq

/-- The JSON body of the `200` acknowledgment (`web.json_response`). -/
def WEBHOOK_OK_BODY : String := "\x7b\"status\": \"ok\"\x7d"

/-- Embedding of `webhook_server.handle_alert`: the list of actions performed, in program
order.  A `400` rejection never invokes the event handler; a valid body with
a `message` key invokes (and awaits) the handler and then responds `200`. -/
def handle_alert (body : Option (List (String × String))) : List WebAction :=
  match body with
  | none => [WebAction.respond 400 "Invalid JSON"]
  | some data =>
    if ¬ dcontains data "message" then
      [WebAction.respond 400 "Missing \u0027message\u0027 field"]
    else
      [WebAction.invokeHandler data, WebAction.respond 200 WEBHOOK_OK_BODY]

/-! Section: agents/conversation.py: constants and the tool footer -/

/-- The constant `conversation.MAX_HISTORY`. -/
def MAX_HISTORY : Nat := 20

/-- The constant `conversation.MAX_TOOL_ROUNDS`. -/
def MAX_TOOL_ROUNDS : Nat := 5

/-- The forced-synthesis user message appended when the model returns no
answer or the round budget is exhausted. -/
def FORCE_ANSWER_PROMPT : String := "Based on everything you found, give your answer now."

/-- The canned fallback when even the forced completion returns no text. -/
def FALLBACK_TEXT : String := "I checked but couldn\u0027t formulate a response."

/-- The constant `conversation._HUMAN_SERVICE`. -/
def HUMAN_SERVICE : List (String × String) :=
  [("turn_on", "on"), ("turn_off", "off"), ("toggle", "toggled")]

/-- The tool names counted as reads by `_format_tool_footer`. -/
def READ_TOOLS : List String :=
  ["get_state", "get_states_by_domain", "get_history", "get_statistics",
   "search_statistics", "read_ha_config", "read_self", "search_entities"]

/-- Tool-call arguments as seen by the executor and the footer:
`json.loads(tc.function.arguments)` restricted to the string-valued fields
the embedded code inspects; `none` models a `json.loads` failure (which the
source replaces with `{}`). -/
abbrev ToolInputs := List (String × String)

/-- One action label of `_format_tool_footer`'s per-tool branch. -/
def footerAction (name : String) (inputs : ToolInputs) : Option String :=
  if name = "call_service" then
    let svc := dgetD inputs "service" "?"
    let label := (dget? HUMAN_SERVICE svc).getD svc
    some (dgetD inputs "domain" "" ++ " " ++ label)
  else if name = "write_ha_config" then some ("wrote " ++ dgetD inputs "filename" "?")
  else if name = "reload_ha_config" then some ("reloaded " ++ dgetD inputs "component" "?")
  else if name = "remember" then some "saved to memory"
  else if name = "write_self" then some ("edited " ++ dgetD inputs "filename" "?")
  else if name = "delegate_to_opus" then some "delegated to Opus"
  else if name = "add_custom_alert" then some "added alert"
  else none

/-- Embedding of `conversation._format_tool_footer`: compact footer showing what the bot
did — a read counter plus one clause per action, or the empty string when no
tools ran. -/
def formatToolFooter (tool_log : List (String × ToolInputs)) : String :=
  let reads := (tool_log.filter (fun p => p.1 ∈ READ_TOOLS)).length
  let actions := tool_log.filterMap (fun p => footerAction p.1 p.2)
  let parts :=
    (if 0 < reads then
      ["checked " ++ toString reads ++ " source" ++ (if 1 < reads then "s" else "")]
     else []) ++ actions
  if parts.isEmpty then ""
  else "\n\n(" ++ String.intercalate ", " parts ++ ")"

/-! Section: agents/conversation.py: the tool-calling loop (`_run_with_tools`)

The completion service is an oracle indexed by the number of completion
calls issued so far; the tool executor (`_execute_tool` composed with
`json.dumps`) is an oracle from tool name and inputs to the serialized tool
result.  The loop itself — round counting, message threading, the
empty-content synthesis retry, and the forced no-tools finalization — is
translated from the source. -/

/-- One requested tool invocation of a completion response. -/
structure ToolCall where
  id : String
  name : String
  arguments : Option ToolInputs
deriving DecidableEq

/-- One completion response (`response.choices[0]`). -/
structure CompResponse where
  finishReason : String
  content : Option String
  toolCalls : List ToolCall
deriving DecidableEq

/-- One entry of the working message list. -/
inductive Msg where
  | system (content : String)
  | user (content : String)
  | assistant (content : Option String) (toolCalls : List ToolCall)
  | tool (toolCallId : String) (content : String)
deriving DecidableEq

/-- Result of `_run_with_tools`, with enough observable structure to state
the round-budget claim: how many tool rounds ran, whether the forced
finalization or the empty-content retry path was taken, and how many
completion calls were issued with tools disabled. -/
structure LoopResult where
  text : String
  toolRounds : Nat
  toolLog : List (String × ToolInputs)
  msgs : List Msg
  forcedFinal : Bool
  synthRetry : Bool
  noToolsCalls : Nat
deriving DecidableEq

/-- The `while rounds < MAX_TOOL_ROUNDS` loop of `_run_with_tools`, with
`fuel = MAX_TOOL_ROUNDS - rounds` as the structural measure (`rounds` grows
by exactly one per tool round).  `calls` counts completion calls already
issued, indexing the oracle. -/
def runLoop (oracle : Nat → CompResponse) (exec : String → ToolInputs → String) :
    List Msg → List (String × ToolInputs) → Nat → Nat → Nat → LoopResult
  | msgs, tool_log, rounds, calls, 0 =>
    -- Hit max tool rounds — force a final response without tools.
    let msgs1 := msgs ++ [Msg.user FORCE_ANSWER_PROMPT]
    let content := pyOr (oracle calls).content FALLBACK_TEXT
    { text := content ++ formatToolFooter tool_log
      toolRounds := rounds
      toolLog := tool_log
      msgs := msgs1
      forcedFinal := true
      synthRetry := false
      noToolsCalls := 1 }
  | msgs, tool_log, rounds, calls, fuel + 1 =>
    let resp := oracle calls
    if resp.finishReason = "tool_calls" ∧ resp.toolCalls ≠ [] then
      let msgs1 := msgs ++ [Msg.assistant resp.content resp.toolCalls]
      let step := resp.toolCalls.foldl
        (fun acc tc =>
          let inputs := tc.arguments.getD []
          (acc.1 ++ [Msg.tool tc.id (exec tc.name inputs)],
           acc.2 ++ [(tc.name, inputs)]))
        (msgs1, tool_log)
      runLoop oracle exec step.1 step.2 (rounds + 1) (calls + 1) fuel
    else
      match resp.content with
      | some c =>
        if (pyStrip c).isEmpty then
          -- Model returned empty content — force a synthesis retry.
          let msgs1 := msgs ++ [Msg.assistant none [], Msg.user FORCE_ANSWER_PROMPT]
          let content := pyOr (oracle (calls + 1)).content FALLBACK_TEXT
          { text := content ++ formatToolFooter tool_log
            toolRounds := rounds
            toolLog := tool_log
            msgs := msgs1
            forcedFinal := false
            synthRetry := true
            noToolsCalls := 1 }
        else
          { text := c ++ formatToolFooter tool_log
            toolRounds := rounds
            toolLog := tool_log
            msgs := msgs
            forcedFinal := false
            synthRetry := false
            noToolsCalls := 0 }
      | none =>
        let msgs1 := msgs ++ [Msg.assistant none [], Msg.user FORCE_ANSWER_PROMPT]
        let content := pyOr (oracle (calls + 1)).content FALLBACK_TEXT
        { text := content ++ formatToolFooter tool_log
          toolRounds := rounds
          toolLog := tool_log
          msgs := msgs1
          forcedFinal := false
          synthRetry := true
          noToolsCalls := 1 }

/-- Embedding of `conversation._run_with_tools`: prepend the freshly rendered system
prompt and run the bounded loop. -/
def runWithTools (oracle : Nat → CompResponse) (exec : String → ToolInputs → String)
    (systemPrompt : String) (messages : List Msg) : LoopResult :=
  runLoop oracle exec (Msg.system systemPrompt :: messages) [] 0 0 MAX_TOOL_ROUNDS

/-! Section: agents/conversation.py: `_write_ha_config`

The `/homeassistant` directory is a map from filename to content; the
external `ha core check` subprocess is an oracle outcome. -/

/-- The constant `conversation.ALLOWED_CONFIG_FILES`. -/
def ALLOWED_CONFIG_FILES : List String :=
  ["automations.yaml", "configuration.yaml", "scripts.yaml", "scenes.yaml", "sensors.yaml"]

/-- Outcome of `subprocess.run(["ha", "core", "check"], ...)`:
either the process completed with a return code and output, or
`subprocess.TimeoutExpired` / `FileNotFoundError` was raised. -/
inductive ValidatorOutcome where
  | completed (returncode : Int) (stdout stderr : String)
  | unavailable (message : String)
deriving DecidableEq

/-- The structured dict returned by `_write_ha_config`. -/
inductive WriteResult where
  | errNotAllowed (message : String)
  | errRestored (message : String)
  | written (filename : String)
  | writtenUnvalidated (filename : String) (note : String)
deriving DecidableEq

/-- Embedding of `conversation._write_ha_config`: reject non-allow-listed names; read the
previous content as a backup, write the new content, run the validator;
restore the backup on validation failure; keep the write but flag it when
the validator is unavailable.  Returns the result dict and the new
filesystem. -/
def write_ha_config (fs : String → Option String) (filename content : String)
    (validator : ValidatorOutcome) : WriteResult × (String → Option String) :=
  if filename ∉ ALLOWED_CONFIG_FILES then
    (WriteResult.errNotAllowed ("Not allowed: " ++ filename), fs)
  else
    let backup := (fs filename).getD ""
    let fs1 := fun n => if n = filename then some content else fs n
    match validator with
    | ValidatorOutcome.completed rc out err =>
      if rc ≠ 0 then
        let fs2 := fun n => if n = filename then some backup else fs1 n
        (WriteResult.errRestored ("Validation failed: " ++ pyStrip (out ++ err)), fs2)
      else (WriteResult.written filename, fs1)
    | ValidatorOutcome.unavailable e =>
      (WriteResult.writtenUnvalidated filename ("Could not validate: " ++ e), fs1)

/-! Section: agents/conversation.py and `bot.py`: session state and routing

One session (the configured chat id).  The `asyncio.Future` used for the
ask-user interrupt is modelled as an explicit future state; the busy flag
and the recent-alerts buffer live in the agent state. -/

/-- One turn of a session's history. -/
inductive Turn where
  | user (content : String)
  | assistant (content : String)
deriving DecidableEq

/-- The state of `self._pending_reply` when it is not `None`. -/
inductive FutureState where
  | pending
  | done (result : String)
deriving DecidableEq

/-- The mutable per-session state of `ConversationAgent` (plus the
recent-alerts buffer referenced by `bot.py`). -/
structure AgentState where
  history : List Turn
  pendingReply : Option FutureState
  agentBusy : Bool
  recentAlerts : List String
deriving DecidableEq

/-- Embedding of `ConversationAgent.reply` (history management, from the source): append
the user turn, truncate FIFO to `MAX_HISTORY`, then either append the
assistant turn and return its text, or return `"Error: <reason>"` when the
tool loop raised.  `loopOutcome` abstracts `await self._run_with_tools(...)`:
`Except.ok t` is a returned text, `Except.error e` a raised exception. -/
def reply (history : List Turn) (user_text : String)
    (loopOutcome : Except String String) : List Turn × String :=
  let h1 := history ++ [Turn.user user_text]
  let h2 := if MAX_HISTORY < h1.length then h1.drop (h1.length - MAX_HISTORY) else h1
  match loopOutcome with
  | Except.ok t => (h2 ++ [Turn.assistant t], t)
  | Except.error e => (h2, "Error: " ++ e)

/-- A session trace: fold `reply` over a sequence of inbound user messages
with their loop outcomes, starting from the empty history.  Used to exhibit
reachable histories. -/
def runUserMessages (msgs : List (String × Except String String)) : List Turn :=
  msgs.foldl (fun h m => (reply h m.1 m.2).1) []

/-- Result of one orchestration turn through the busy-flag wrapper. -/
structure TurnResult where
  state : AgentState
  text : String
  busyDuringTurn : Bool
deriving DecidableEq

/-- Modelled from the spec: the busy-flag management around a conversational
turn is absent from the provided sources (`_agent_busy` is only initialized
there and read by `bot.py`).  Per §5 of the spec, the flag "is true only
during an in-flight turn; false before and after": the wrapper sets it,
runs `reply`, and clears it.  `busyDuringTurn` records the flag's value
while the turn is in flight. -/
def replyEntry (st : AgentState) (user_text : String)
    (loopOutcome : Except String String) : TurnResult :=
  let running : AgentState := { st with agentBusy := true }
  let r := reply running.history user_text loopOutcome
  { state := { running with history := r.1, agentBusy := false }
    text := r.2
    busyDuringTurn := running.agentBusy }

/-- How `bot.handle_text` classified an inbound message. -/
inductive InboundOutcome where
  | resolvedInterrupt
  | rejectedBusy
  | startedTurn
deriving DecidableEq

/-- The reply sent when a message arrives while the agent is mid-task. -/
def STILL_WORKING_TEXT : String := "Still working on the last task, just a moment."

/-- Embedding of `bot.handle_text` (inbound routing, from the source): an outstanding
unresolved pending interrupt consumes the message; otherwise a busy agent
rejects it with a canned reply and touches nothing; otherwise a new turn
runs.  Returns the new state, the classification, and the texts sent back
to the user (markdown stripping is presentational and omitted). -/
def handleText (st : AgentState) (user_text : String)
    (loopOutcome : Except String String) : AgentState × InboundOutcome × List String :=
  match st.pendingReply with
  | some FutureState.pending =>
    ({ st with pendingReply := some (FutureState.done user_text) },
     InboundOutcome.resolvedInterrupt, [])
  | _ =>
    if st.agentBusy then (st, InboundOutcome.rejectedBusy, [STILL_WORKING_TEXT])
    else
      let r := replyEntry st user_text loopOutcome
      (r.state, InboundOutcome.startedTurn,
       if (pyStrip r.text).isEmpty then [] else [r.text])

/-- The canned reply `ask_user` resolves with when the timeout elapses. -/
def TIMED_OUT_REPLY : String := "No reply received (timed out)."

/-- The `{reply: string}` result of the `ask_user` tool. -/
structure AskUserResult where
  reply : String
deriving DecidableEq

/-- Modelled from the spec: the `ask_user` tool is absent from the provided
sources (`bot.py` resolves `_pending_reply`, but no executor branch creates
it).  Per §4.4, `ask_user` sends the prompt via the proactive path
immediately and creates the session's Pending Interrupt.  Returns the new
state and the messages sent. -/
def askUserStart (st : AgentState) (prompt : String) : AgentState × List String :=
  ({ st with pendingReply := some FutureState.pending }, [prompt])

/-- Modelled from the spec: the suspension of `ask_user`
(`await asyncio.wait_for(future, timeout)` with a `finally` clearing the
slot).  A resolved future yields its text; a still-pending future at expiry
yields the canned timed-out reply.  Either way the Pending Interrupt is
cleared. -/
def askUserAwait (st : AgentState) : AgentState × AskUserResult :=
  match st.pendingReply with
  | some (FutureState.done t) => ({ st with pendingReply := none }, { reply := t })
  | _ => ({ st with pendingReply := none }, { reply := TIMED_OUT_REPLY })

/-- The literal silence sentinel (spec §4.8 and design notes). -/
def SILENCE_SENTINEL : String := "SILENT"

/-- The bound of the Recent-Alerts Buffer (spec §3). -/
def RECENT_ALERTS_MAX : Nat := 5

/-- Modelled from the spec: `run_proactive` is absent from the provided
sources (called by `bot.py` with `context`, `chat_id`, `use_history`,
`model`).  Per §4.8: a final response body equal to the silence sentinel
performs no delivery and leaves the Recent-Alerts Buffer unchanged;
otherwise the text is delivered, pushed most-recent-first onto the buffer
(bounded, oldest evicted), and `use_history` decides whether the synthetic
prompt and answer are appended to the session history.  `finalText` is the
final response of the Tool-Calling Loop run; the returned list holds the
delivered messages. -/
def runProactive (st : AgentState) (context : String) (useHistory : Bool)
    (finalText : String) : AgentState × List String :=
  if finalText = SILENCE_SENTINEL then (st, [])
  else
    let st1 :=
      if useHistory then
        { st with history :=
            st.history ++ [Turn.user ("[PROACTIVE] " ++ context), Turn.assistant finalText] }
      else st
    ({ st1 with recentAlerts := (finalText :: st1.recentAlerts).take RECENT_ALERTS_MAX },
     [finalText])

/-- A concrete completion oracle that requests a tool call on every round —
used to exhibit the exhausted-budget path of the tool-calling loop. -/
def demoOracle : Nat → CompResponse := fun _ =>
  { finishReason := "tool_calls", content := none,
    toolCalls := [{ id := "call1", name := "get_state",
                    arguments := some [("entity_id", "sensor.spa_temp")] }] }

/-- A concrete tool executor returning a fixed serialized result. -/
def demoExec : String → ToolInputs → String := fun _ _ => "ok"

/-! Section: Claim C5 -/

/-- C5. For every entity present in both snapshots whose domain is watched
and not in the binary-like set, with both old and new values numeric and
unequal, `compute_state_diff` emits a diff line if and only if
`|new - old| >= 2.0` or `|new - old| / |old| >= 0.05` (logical OR — either
condition alone qualifies), with `old = 0` always qualifying (infinite
percentage change); otherwise the change is suppressed.  Stated both for the
per-entity decision `diffLine` and for a full `compute_state_diff` call. -/
theorem c5_numeric_noise_filter (eid old_val new_val : String) (a b : ℚ)
    (ds : List String)
    (hw : ds = [] ∨ domainOf eid ∈ ds)
    (hbin : domainOf eid ∉ BINARY_DOMAINS)
    (ha : parseNum old_val = some a)
    (hb : parseNum new_val = some b)
    (hne : old_val ≠ new_val) :
    ((diffLine eid old_val new_val).isSome ↔
      (NUMERIC_ABS_THRESHOLD ≤ |b - a| ∨ a = 0 ∨
        NUMERIC_PCT_THRESHOLD ≤ |b - a| / |a|)) ∧
    (compute_state_diff [⟨eid, new_val⟩] [(eid, old_val)] ds).2 =
      (if NUMERIC_ABS_THRESHOLD ≤ |b - a| ∨ a = 0 ∨
          NUMERIC_PCT_THRESHOLD ≤ |b - a| / |a|
       then [eid ++ ": " ++ old_val ++ " -> " ++ new_val] else []) := by
  have hnum_old : isNumeric old_val = true := by simp [isNumeric, ha]
  have hnum_new : isNumeric new_val = true := by simp [isNumeric, hb]
  have hline : diffLine eid old_val new_val =
      (if NUMERIC_ABS_THRESHOLD ≤ |b - a| ∨ a = 0 ∨
          NUMERIC_PCT_THRESHOLD ≤ |b - a| / |a|
       then some (eid ++ ": " ++ old_val ++ " -> " ++ new_val) else none) := by
    unfold diffLine
    rw [ha, hb]
    rw [if_neg (by simp [hnum_old, hnum_new])]
    rw [if_neg hbin]
    simp only [Option.getD_some]
  refine ⟨?_, ?_⟩
  · rw [hline]
    by_cases hc : NUMERIC_ABS_THRESHOLD ≤ |b - a| ∨ a = 0 ∨
        NUMERIC_PCT_THRESHOLD ≤ |b - a| / |a| <;> simp [hc]
  · have hfilter : ¬ (ds ≠ [] ∧ domainOf eid ∉ ds) := by tauto
    have hsnap : dinsert [] eid new_val = [(eid, new_val)] := by
      simp [dinsert]
    have hget_last : dget? [(eid, old_val)] eid = some old_val := by
      simp [dget?]
    have hget_snap : dget? [(eid, new_val)] eid = some new_val := by
      simp [dget?]
    unfold compute_state_diff
    simp only [List.foldl_cons, List.foldl_nil, if_neg hfilter, hsnap,
      List.isEmpty_cons, Bool.false_eq_true, if_false,
      List.filterMap_cons, List.filterMap_nil, hget_last, hget_snap,
      Option.isSome_some, if_true, hline, List.append_nil, List.nil_append]
    rw [if_neg hne]
    by_cases hc : NUMERIC_ABS_THRESHOLD ≤ |b - a| ∨ a = 0 ∨
        NUMERIC_PCT_THRESHOLD ≤ |b - a| / |a| <;> simp [hc]

/-- Witness for C5: the spec's own example — `0.5 -> 1.0` on a watched
non-binary sensor is reported (pct change 100% ≥ 5% despite abs change
0.5 < 2.0, OR semantics). -/
theorem c5_numeric_noise_filter_witness :
    (compute_state_diff [⟨"sensor.power", "1.0"⟩] [("sensor.power", "0.5")]
      ["sensor"]).2 = ["sensor.power: 0.5 -> 1.0"] := by
  have h := c5_numeric_noise_filter "sensor.power" "0.5" "1.0" (1/2) 1 ["sensor"]
    (by right; decide) (by decide)
    (by simp [parseNum, parseExp, stripChars, digitsVal]; try norm_num)
    (by simp [parseNum, parseExp, stripChars, digitsVal]; try norm_num)
    (by decide)
  rw [h.2]
  norm_num [NUMERIC_ABS_THRESHOLD, NUMERIC_PCT_THRESHOLD]
  decide

/-! Section: Claim C7 -/

/-- C7. For every triage classification call: if the completion call
raises an exception, or returns an empty (all-whitespace) response, or
returns a response whose first word (lowercased) is not in
`{ignore, log, notify, needs_input}`, then `classify` returns `"notify"`. -/
theorem c7_classify_defaults_to_notify :
    (∀ e : String, classify (Except.error e) = "notify") ∧
    (∀ raw : String, (pyStrip raw).isEmpty = true →
      classify (Except.ok raw) = "notify") ∧
    (∀ raw : String,
      (pySplitWs (pyLower (pyStrip raw))).headD "" ∉ VALID_ACTIONS →
      classify (Except.ok raw) = "notify") := by
  refine ⟨fun e => rfl, fun raw h => ?_, fun raw h => ?_⟩
  · simp [classify, h, VALID_ACTIONS]
  · by_cases he : (pyStrip raw).isEmpty
    · simp [classify, he, VALID_ACTIONS]
    · simp [classify, he]
      intro hmem
      exact absurd hmem (by simpa using h)

/-- Witness for C7: a response whose first word is not a valid action falls
back to `"notify"`. -/
theorem c7_classify_defaults_to_notify_witness :
    classify (Except.ok "ESCALATE immediately") = "notify" :=
  c7_classify_defaults_to_notify.2.2 "ESCALATE immediately" (by decide)

/-! Section: Claim C6 -/

/-- C6. For every `write_ha_config` call with an allow-listed filename:
the previous content is read (as the rollback backup) before the new content
is written; the external validation command is invoked after the write; on
validation failure (non-zero return code) the previous content is restored
and the result reports restoration; when the validator is unavailable
(missing or timed out) the written content is kept and the result is flagged
as unvalidated; on success the written content is kept. -/
theorem c6_write_ha_config_backup_restore (fs : String → Option String)
    (filename content : String) (hallow : filename ∈ ALLOWED_CONFIG_FILES) :
    (∀ rc : Int, ∀ out err : String, rc ≠ 0 →
      (write_ha_config fs filename content (ValidatorOutcome.completed rc out err)).1 =
        WriteResult.errRestored ("Validation failed: " ++ pyStrip (out ++ err)) ∧
      (write_ha_config fs filename content (ValidatorOutcome.completed rc out err)).2 filename =
        some ((fs filename).getD "")) ∧
    (∀ out err : String,
      (write_ha_config fs filename content (ValidatorOutcome.completed 0 out err)).1 =
        WriteResult.written filename ∧
      (write_ha_config fs filename content (ValidatorOutcome.completed 0 out err)).2 filename =
        some content) ∧
    (∀ e : String,
      (write_ha_config fs filename content (ValidatorOutcome.unavailable e)).1 =
        WriteResult.writtenUnvalidated filename ("Could not validate: " ++ e) ∧
      (write_ha_config fs filename content (ValidatorOutcome.unavailable e)).2 filename =
        some content) := by
  refine ⟨fun rc out err hrc => ?_, fun out err => ?_, fun e => ?_⟩
  · simp [write_ha_config, hallow, hrc]
  · simp [write_ha_config, hallow]
  · simp [write_ha_config, hallow]

/-- Witness for C6: a failing validation on `automations.yaml` restores the
previous content and reports restoration. -/
theorem c6_write_ha_config_backup_restore_witness :
    (write_ha_config (fun n => if n = "automations.yaml" then some "old: config" else none)
        "automations.yaml" "new: config" (ValidatorOutcome.completed 1 "Invalid config" "")).1 =
      WriteResult.errRestored ("Validation failed: " ++ pyStrip ("Invalid config" ++ "")) ∧
    (write_ha_config (fun n => if n = "automations.yaml" then some "old: config" else none)
        "automations.yaml" "new: config" (ValidatorOutcome.completed 1 "Invalid config" "")).2
        "automations.yaml" =
      some (((fun n => if n = "automations.yaml" then some "old: config" else none)
        "automations.yaml").getD "") :=
  (c6_write_ha_config_backup_restore
    (fun n => if n = "automations.yaml" then some "old: config" else none)
    "automations.yaml" "new: config" (by decide)).1 1 "Invalid config" "" (by decide)

/-! Section: Claim C1 -/

/-- C1. For every session, `ask_user(prompt, timeout)` returns
`{reply: t}` where `t` is the text of the next inbound message routed to the
session while the Pending Interrupt is outstanding (the inbound handler
resolves the interrupt instead of starting a new turn), or the canned reply
containing `"timed out"` if the timeout elapses first; in both cases the
Pending Interrupt is `None` afterward.  The interrupt machinery is modelled
from the spec (see `askUserStart` / `askUserAwait`); the routing is
`bot.handle_text` from the source. -/
theorem c1_ask_user_interrupt (st : AgentState) (prompt t : String)
    (o : Except String String) :
    ((askUserStart st prompt).2 = [prompt]) ∧
    ((handleText (askUserStart st prompt).1 t o).2.1 =
      InboundOutcome.resolvedInterrupt) ∧
    ((askUserAwait (handleText (askUserStart st prompt).1 t o).1).2.reply = t) ∧
    ((askUserAwait (handleText (askUserStart st prompt).1 t o).1).1.pendingReply = none) ∧
    ((askUserAwait (askUserStart st prompt).1).2.reply = TIMED_OUT_REPLY) ∧
    ((askUserAwait (askUserStart st prompt).1).1.pendingReply = none) ∧
    (∃ pre post, TIMED_OUT_REPLY = pre ++ "timed out" ++ post) := by
  refine ⟨rfl, ?_, ?_, ?_, ?_, ?_, ⟨"No reply received (", ").", rfl⟩⟩ <;>
    simp [askUserStart, handleText, askUserAwait]

/-! Section: Claim C2 -/

/-- C2. For every session, the busy flag is true exactly while a turn is
in flight (true during, false after — the wrapper is modelled from the spec
since the sources only initialize and read `_agent_busy`), and a second
inbound message arriving while the flag is true (with no interrupt
outstanding) is rejected by `bot.handle_text` with the "still working" reply
and leaves the whole session state — in particular the history —
unmodified. -/
theorem c2_busy_flag (st : AgentState) (u : String) (o : Except String String) :
    ((replyEntry st u o).busyDuringTurn = true) ∧
    ((replyEntry st u o).state.agentBusy = false) ∧
    (st.pendingReply ≠ some FutureState.pending → st.agentBusy = true →
      handleText st u o = (st, InboundOutcome.rejectedBusy, [STILL_WORKING_TEXT])) := by
  refine ⟨rfl, rfl, fun hp hb => ?_⟩
  cases hpr : st.pendingReply with
  | none => simp [handleText, hpr, hb]
  | some f =>
    cases f with
    | pending => exact absurd hpr hp
    | done r => simp [handleText, hpr, hb]

/-- Witness for C2: a concrete busy session rejects a second message with
the canned "still working" reply and an unchanged state. -/
theorem c2_busy_flag_witness :
    handleText
      { history := [Turn.user "turn off the spa"], pendingReply := none,
        agentBusy := true, recentAlerts := [] }
      "status?" (Except.ok "done") =
    ({ history := [Turn.user "turn off the spa"], pendingReply := none,
       agentBusy := true, recentAlerts := [] },
     InboundOutcome.rejectedBusy, [STILL_WORKING_TEXT]) :=
  (c2_busy_flag
    { history := [Turn.user "turn off the spa"], pendingReply := none,
      agentBusy := true, recentAlerts := [] }
    "status?" (Except.ok "done")).2.2 (by decide) rfl

/-! Section: Claim C3 -/

/-- C3. For every invocation of `run_proactive` (modelled from the
spec), if the model's final response body is exactly the silence sentinel,
no delivery is performed via the transport send function and the
Recent-Alerts Buffer is unchanged. -/
theorem c3_silence_sentinel_suppresses (st : AgentState) (context : String)
    (useHistory : Bool) :
    (runProactive st context useHistory SILENCE_SENTINEL).2 = [] ∧
    (runProactive st context useHistory SILENCE_SENTINEL).1.recentAlerts =
      st.recentAlerts := by
  simp [runProactive]

/-! Section: Claim C4 -/

/-- Invariant of the tool-calling loop: the number of tool rounds performed
is bounded by the remaining fuel, and when the forced-finalization path is
taken it happens after exactly `rounds + fuel` tool rounds, issues exactly
one completion call with tools disabled, and returns that call's text (or
the canned fallback) plus the action footer. -/
theorem runLoop_round_budget (oracle : Nat → CompResponse)
    (exec : String → ToolInputs → String) :
    ∀ (fuel : Nat) (msgs : List Msg) (tlog : List (String × ToolInputs))
      (rounds calls : Nat),
      (runLoop oracle exec msgs tlog rounds calls fuel).toolRounds ≤ rounds + fuel ∧
      ((runLoop oracle exec msgs tlog rounds calls fuel).forcedFinal = true →
        (runLoop oracle exec msgs tlog rounds calls fuel).toolRounds = rounds + fuel ∧
        (runLoop oracle exec msgs tlog rounds calls fuel).noToolsCalls = 1 ∧
        (runLoop oracle exec msgs tlog rounds calls fuel).text =
          pyOr (oracle (calls + fuel)).content FALLBACK_TEXT ++
            formatToolFooter (runLoop oracle exec msgs tlog rounds calls fuel).toolLog) := by
  intro fuel
  induction fuel with
  | zero =>
    intro msgs tlog rounds calls
    simp [runLoop]
  | succ fuel ih =>
    intro msgs tlog rounds calls
    by_cases hcond : (oracle calls).finishReason = "tool_calls" ∧ (oracle calls).toolCalls ≠ []
    · have hstep : runLoop oracle exec msgs tlog rounds calls (fuel + 1) =
          runLoop oracle exec
            ((oracle calls).toolCalls.foldl
              (fun acc tc =>
                (acc.1 ++ [Msg.tool tc.id (exec tc.name (tc.arguments.getD []))],
                 acc.2 ++ [(tc.name, tc.arguments.getD [])]))
              (msgs ++ [Msg.assistant (oracle calls).content (oracle calls).toolCalls], tlog)).1
            ((oracle calls).toolCalls.foldl
              (fun acc tc =>
                (acc.1 ++ [Msg.tool tc.id (exec tc.name (tc.arguments.getD []))],
                 acc.2 ++ [(tc.name, tc.arguments.getD [])]))
              (msgs ++ [Msg.assistant (oracle calls).content (oracle calls).toolCalls], tlog)).2
            (rounds + 1) (calls + 1) fuel := by
        simp [runLoop, hcond]
      rw [hstep]
      have e1 : rounds + (fuel + 1) = rounds + 1 + fuel := by omega
      have e2 : calls + (fuel + 1) = calls + 1 + fuel := by omega
      rw [e1, e2]
      exact ih _ _ (rounds + 1) (calls + 1)
    · rcases hc : (oracle calls).content with _ | c
      · simp [runLoop, hcond, hc]
      · by_cases he : (pyStrip c).isEmpty
        · simp [runLoop, hcond, hc, he]
        · simp [runLoop, hcond, hc, he]

/-- C4. For every conversational turn, `_run_with_tools` performs at
most `MAX_TOOL_ROUNDS` (5) tool rounds; when the budget is exhausted without
a final answer it makes exactly one further completion call with tools
disabled and returns that call's text — or the canned fallback string if
that text is empty — with the action footer appended (per spec §4.3 the
footer is appended to every final text).  The loop is a total function of
its fuel, so it always terminates. -/
theorem c4_tool_round_budget (oracle : Nat → CompResponse)
    (exec : String → ToolInputs → String) (sys : String) (messages : List Msg) :
    (runWithTools oracle exec sys messages).toolRounds ≤ MAX_TOOL_ROUNDS ∧
    ((runWithTools oracle exec sys messages).forcedFinal = true →
      (runWithTools oracle exec sys messages).toolRounds = MAX_TOOL_ROUNDS ∧
      (runWithTools oracle exec sys messages).noToolsCalls = 1 ∧
      (runWithTools oracle exec sys messages).text =
        pyOr (oracle MAX_TOOL_ROUNDS).content FALLBACK_TEXT ++
          formatToolFooter (runWithTools oracle exec sys messages).toolLog) := by
  have h := runLoop_round_budget oracle exec MAX_TOOL_ROUNDS
    (Msg.system sys :: messages) [] 0 0
  simpa [runWithTools] using h

/-- Witness for C4: a model that asks for a tool on every round exhausts the
budget at exactly 5 tool rounds and gets exactly one forced no-tools call. -/
theorem c4_tool_round_budget_witness :
    (runWithTools demoOracle demoExec "You are Jarvis." []).toolRounds ≤ MAX_TOOL_ROUNDS ∧
    (runWithTools demoOracle demoExec "You are Jarvis." []).toolRounds = MAX_TOOL_ROUNDS ∧
    (runWithTools demoOracle demoExec "You are Jarvis." []).noToolsCalls = 1 := by
  have h := c4_tool_round_budget demoOracle demoExec "You are Jarvis." []
  have hf := h.2 (by decide)
  exact ⟨h.1, hf.1, hf.2.1⟩

/-! Section: Claim C8 (corrected) -/

/-- C8 counterexample. The claim "the ordered turn history never exceeds
`MAX_HISTORY` (20)" fails on the code: `reply` truncates only when appending
the user turn and then appends the assistant turn unconditionally, so a
session reaches 21 turns.  Concretely, eleven successful turns starting from
the empty history leave 21 turns. -/
theorem c8_history_cap_counterexample :
    (runUserMessages (List.replicate 11 ("hi", Except.ok "ok"))).length = 21 ∧
    MAX_HISTORY < 21 := by
  decide

/-- C8 (amended). The history never exceeds `MAX_HISTORY + 1` turns:
`reply` truncates FIFO (oldest first, preserving order — the kept turns are
a suffix of the appended history) to `MAX_HISTORY` when appending the user
turn, and the assistant turn of a successful turn may then push the length
to `MAX_HISTORY + 1` until the next turn truncates again. -/
theorem c8_history_cap_amended (h : List Turn) (u : String)
    (o : Except String String) :
    ((reply h u o).1.length ≤ MAX_HISTORY + 1) ∧
    ((if MAX_HISTORY < (h ++ [Turn.user u]).length
      then (h ++ [Turn.user u]).drop ((h ++ [Turn.user u]).length - MAX_HISTORY)
      else h ++ [Turn.user u]) <:+ (h ++ [Turn.user u])) ∧
    (∀ t, o = Except.ok t → (reply h u o).1 =
      (if MAX_HISTORY < (h ++ [Turn.user u]).length
       then (h ++ [Turn.user u]).drop ((h ++ [Turn.user u]).length - MAX_HISTORY)
       else h ++ [Turn.user u]) ++ [Turn.assistant t]) ∧
    (∀ e, o = Except.error e → (reply h u o).1 =
      (if MAX_HISTORY < (h ++ [Turn.user u]).length
       then (h ++ [Turn.user u]).drop ((h ++ [Turn.user u]).length - MAX_HISTORY)
       else h ++ [Turn.user u])) := by
  have hkept : (if MAX_HISTORY < (h ++ [Turn.user u]).length
      then (h ++ [Turn.user u]).drop ((h ++ [Turn.user u]).length - MAX_HISTORY)
      else h ++ [Turn.user u]).length ≤ MAX_HISTORY := by
    split
    · rename_i hgt
      simp only [List.length_drop]
      omega
    · rename_i hle
      omega
  refine ⟨?_, ?_, fun t ht => ?_, fun e he => ?_⟩
  · rcases o with e | t
    · exact hkept.trans (Nat.le_succ _)
    · show ((if MAX_HISTORY < (h ++ [Turn.user u]).length
          then (h ++ [Turn.user u]).drop ((h ++ [Turn.user u]).length - MAX_HISTORY)
          else h ++ [Turn.user u]) ++ [Turn.assistant t]).length ≤ MAX_HISTORY + 1
      rw [List.length_append]
      simpa using Nat.add_le_add_right hkept 1
  · split
    · exact List.drop_suffix _ _
    · exact List.suffix_refl _
  · subst ht; rfl
  · subst he; rfl

/-- Witness for C8 (amended): a 21-turn history stays within 21 turns after
a further successful turn, and the successful turn's result is the FIFO
truncation followed by the assistant turn. -/
theorem c8_history_cap_amended_witness :
    (reply (List.replicate 21 (Turn.user "x")) "hello" (Except.ok "hi")).1.length ≤
      MAX_HISTORY + 1 ∧
    (reply (List.replicate 21 (Turn.user "x")) "hello" (Except.ok "hi")).1 =
      (if MAX_HISTORY < (List.replicate 21 (Turn.user "x") ++ [Turn.user "hello"]).length
       then (List.replicate 21 (Turn.user "x") ++ [Turn.user "hello"]).drop
         ((List.replicate 21 (Turn.user "x") ++ [Turn.user "hello"]).length - MAX_HISTORY)
       else List.replicate 21 (Turn.user "x") ++ [Turn.user "hello"]) ++
        [Turn.assistant "hi"] :=
  ⟨(c8_history_cap_amended (List.replicate 21 (Turn.user "x")) "hello" (Except.ok "hi")).1,
   (c8_history_cap_amended (List.replicate 21 (Turn.user "x")) "hello"
      (Except.ok "hi")).2.2.1 "hi" rfl⟩

/-! Section: Claim C9 (corrected) -/

/-- C9 counterexample. The claim that a well-formed body "is acknowledged
immediately ... the acknowledgment does not wait for classification to
complete" fails on the code: `handle_alert` performs `await on_event(data)`
— which runs the triage classification — *before* returning the `200`
acknowledgment.  In the program-order action trace of a concrete valid
request, the handler invocation precedes the response, i.e. the respond
action is not first. -/
theorem c9_ack_order_counterexample :
    handle_alert (some [("title", "Security"), ("message", "Door opened")]) =
      [WebAction.invokeHandler [("title", "Security"), ("message", "Door opened")],
       WebAction.respond 200 WEBHOOK_OK_BODY] ∧
    (handle_alert (some [("title", "Security"), ("message", "Door opened")])).head? ≠
      some (WebAction.respond 200 WEBHOOK_OK_BODY) := by
  decide

/-- C9 (amended). For every POST to the webhook ingress endpoint: a body
that is not valid JSON, or a valid JSON object missing the `"message"` key,
is rejected with a 400 client error and the event handler is never invoked;
any other JSON-object body causes the event handler (the triage path) to be
invoked and awaited to completion, after which a success acknowledgment is
returned — the acknowledgment waits for the handler. -/
theorem c9_webhook_ingress_amended (body : Option (List (String × String))) :
    (body = none → handle_alert body = [WebAction.respond 400 "Invalid JSON"]) ∧
    (∀ data, body = some data → dcontains data "message" = false →
      handle_alert body = [WebAction.respond 400 "Missing \u0027message\u0027 field"]) ∧
    (∀ data, body = some data → dcontains data "message" = true →
      handle_alert body =
        [WebAction.invokeHandler data, WebAction.respond 200 WEBHOOK_OK_BODY]) := by
  refine ⟨fun hn => ?_, fun data hd hm => ?_, fun data hd hm => ?_⟩ <;>
    subst_vars <;> simp [handle_alert, *]

/-- Witness for C9 (amended): a valid body invokes the handler and then
responds 200; a body missing `message` is rejected with 400. -/
theorem c9_webhook_ingress_amended_witness :
    handle_alert (some [("message", "Door opened")]) =
      [WebAction.invokeHandler [("message", "Door opened")],
       WebAction.respond 200 WEBHOOK_OK_BODY] :=
  (c9_webhook_ingress_amended (some [("message", "Door opened")])).2.2
    [("message", "Door opened")] rfl (by decide)

/-! Section: Claim C10 (corrected) -/

/-- C10 counterexample. The claim that a failed turn grows the history
"by exactly one" fails on the code: when the pre-call history is already at
or above `MAX_HISTORY`, the FIFO truncation performed while appending the
user turn caps it, so the length does not grow by one.  Concretely, after
eleven successful turns the history holds 21 turns; a failing turn then
leaves 20 turns — not 22. -/
theorem c10_error_growth_counterexample :
    (reply (runUserMessages (List.replicate 11 ("hi", Except.ok "ok"))) "again"
        (Except.error "boom")).2 = "Error: boom" ∧
    (reply (runUserMessages (List.replicate 11 ("hi", Except.ok "ok"))) "again"
        (Except.error "boom")).1.length ≠
      (runUserMessages (List.replicate 11 ("hi", Except.ok "ok"))).length + 1 := by
  decide

/-- C10 (amended). For every `reply` call in which the inner tool loop
raises, `reply` returns `"Error: <reason>"` and the history still ends with
the just-appended user turn with no corresponding assistant turn — the
mutation of a failed turn is not rolled back.  The history length becomes
`min (old + 1) MAX_HISTORY`: it grows by exactly one precisely when the
pre-call history holds fewer than `MAX_HISTORY` turns; otherwise FIFO
truncation caps it. -/
theorem c10_error_turn_amended (h : List Turn) (u e : String) :
    (reply h u (Except.error e)).2 = "Error: " ++ e ∧
    (∃ pre, (reply h u (Except.error e)).1 = pre ++ [Turn.user u]) ∧
    (reply h u (Except.error e)).1.length = min (h.length + 1) MAX_HISTORY ∧
    (h.length < MAX_HISTORY →
      (reply h u (Except.error e)).1.length = h.length + 1) := by
  have hM : MAX_HISTORY = 20 := rfl
  have hlen1 : (h ++ [Turn.user u]).length = h.length + 1 := by simp
  have hres : (reply h u (Except.error e)).1 =
      (if MAX_HISTORY < (h ++ [Turn.user u]).length
       then (h ++ [Turn.user u]).drop ((h ++ [Turn.user u]).length - MAX_HISTORY)
       else h ++ [Turn.user u]) := rfl
  refine ⟨rfl, ?_, ?_, ?_⟩
  · rw [hres]
    split
    · rename_i hgt
      refine ⟨h.drop ((h ++ [Turn.user u]).length - MAX_HISTORY), ?_⟩
      rw [List.drop_append_of_le_length (by omega)]
    · exact ⟨h, rfl⟩
  · rw [hres]
    split
    · rename_i hgt
      simp only [List.length_drop]
      omega
    · rename_i hle
      omega
  · intro hlt
    rw [hres, if_neg (by omega)]
    exact hlen1

/-- Witness for C10 (amended): below the cap, a failing turn returns the
error text and grows the history by exactly one. -/
theorem c10_error_turn_amended_witness :
    (reply [Turn.user "q", Turn.assistant "a"] "next" (Except.error "API error")).2 =
      "Error: " ++ "API error" ∧
    (reply [Turn.user "q", Turn.assistant "a"] "next" (Except.error "API error")).1.length =
      2 + 1 := by
  have hthm := c10_error_turn_amended [Turn.user "q", Turn.assistant "a"] "next" "API error"
  exact ⟨hthm.1, hthm.2.2.2 (by decide)⟩

end Jarvis
